import Mathlib

/-!
Shallow embedding of the AutoViralAI content-creation pipeline and its
orchestrator (`src/orchestrator.py`, `src/graphs/creation_pipeline.py`,
`src/nodes/approval.py`, `src/nodes/ranking.py`, `src/nodes/publishing.py`,
`src/nodes/goal_check.py`, `src/nodes/generation.py`, `src/models/*.py`),
together with theorems checking the natural-language specification of the
repository against the code.

Modelling conventions:
* Python floats are modelled as exact rationals (`ℚ`); every score formula in
  the code is built from `+`, `*`, `min`, `max` and division by a list length.
* LangGraph nodes return partial state updates merged into the
  `CreationPipelineState` TypedDict (`errors` carries `operator.add`, so new
  error entries are appended; every other returned key overwrites the field;
  keys absent from the returned dict leave the field unchanged).  Each node is
  embedded as a total function on `GState` performing exactly that merge.
* External collaborators (the LLM, the knowledge base, the embedding client,
  the Threads client, the clock) are inputs of a pipeline run: their outcomes
  are fields of an `Env` record, with `Except` capturing a raised exception.
* Python's `list.sort(key=..., reverse=True)` is a stable descending sort;
  stable sorts by a total preorder are extensionally unique, so it is
  embedded as `List.insertionSort` with the descending composite relation.
* The embedding client and `cosine_similarity` (float vector maths) are
  modelled as an opaque similarity oracle `cos_sim`; the novelty formula
  applied on top of it is embedded exactly.
-/

namespace AutoViral

/-- A generated post variant (`src/models/content.py`, `PostVariant`); only
the fields read by `rank_and_select` are modelled. -/
structure Variant where
  content : String
  pattern_used : String
  pillar : String
deriving DecidableEq, Repr

/-- `src/models/content.py`, `RankedPost`. -/
structure RankedPost where
  content : String
  pattern_used : String
  pillar : String
  ai_score : ℚ
  pattern_history_score : ℚ
  novelty_score : ℚ
  composite_score : ℚ
  rank : ℕ
  reasoning : String
deriving DecidableEq, Repr

/-- `RankedPost.AI_WEIGHT = 0.4`. -/
def AI_WEIGHT : ℚ := 4/10

/-- `RankedPost.HISTORY_WEIGHT = 0.3`. -/
def HISTORY_WEIGHT : ℚ := 3/10

/-- `RankedPost.NOVELTY_WEIGHT = 0.3`. -/
def NOVELTY_WEIGHT : ℚ := 3/10

/-- `RankedPost.compute_composite` (`src/models/content.py`). -/
def RankedPost.compute_composite (ai_score pattern_history_score novelty_score : ℚ) : ℚ :=
  AI_WEIGHT * ai_score + HISTORY_WEIGHT * pattern_history_score
    + NOVELTY_WEIGHT * novelty_score

/-- `src/models/strategy.py`, `PatternPerformance`; only the fields read by
`effectiveness_score` are modelled. -/
structure PatternPerformance where
  pattern_name : String
  times_used : ℕ := 0
  avg_engagement_rate : ℚ := 0
  avg_follower_delta : ℚ := 0
deriving DecidableEq, Repr

/-- `PatternPerformance.effectiveness_score` (`src/models/strategy.py`):
5.0 exploration bonus for untried patterns, otherwise a capped blend of
engagement and follower gain. -/
def PatternPerformance.effectiveness_score (p : PatternPerformance) : ℚ :=
  if p.times_used = 0 then 5
  else
    let engagement_component := min (p.avg_engagement_rate * 100) 10
    let follower_component := min (max p.avg_follower_delta 0 * 2) 10
    6/10 * engagement_component + 4/10 * follower_component

/-- `src/models/publishing.py`, `PublishedPost`.  Timestamps are modelled as
integer epoch seconds, so `+ 24h` is `+ 86400`. -/
structure PublishedPost where
  threads_id : String
  content : String
  pattern_used : String
  pillar : String
  published_at : ℤ
  scheduled_metrics_check : ℤ
  follower_count_at_publish : ℤ
  ai_score : ℚ
  composite_score : ℚ
deriving DecidableEq, Repr

/-- `CreationPipelineState` (`src/models/state.py`).  `viral_posts` and
`extracted_patterns` are lists of dicts in Python; the creation-pipeline
control flow only tests them for emptiness, so their entries are modelled as
opaque strings. -/
structure GState where
  current_follower_count : ℤ
  target_follower_count : ℤ
  goal_reached : Bool
  viral_posts : List String
  extracted_patterns : List String
  generated_variants : List Variant
  ranked_posts : List RankedPost
  selected_post : Option RankedPost
  human_decision : Option String
  human_edited_content : Option String
  human_feedback : Option String
  published_post : Option PublishedPost
  cycle_number : ℕ
  errors : List String
deriving DecidableEq, Repr

/-- `HumanDecision` dict (`src/models/state.py` §data-model / the decision
dicts built in `bot/handlers/approval.py`).  Only the keys read by the code
are modelled; a key that is absent and a key set to `None` behave identically
in every `decision.get(...)` the code performs, so both are `none`. -/
structure HumanDecisionDict where
  decision : Option String := none
  edited_content : Option String := none
  feedback : Option String := none
  use_alternative : Option ℤ := none
  publish_at : Option String := none
deriving DecidableEq, Repr

/-- The value returned by `interrupt(...)` on resume: the injected object is
`Command(resume=decision)`'s payload, which need not be a dict
(`src/nodes/approval.py` guards `isinstance(decision, dict)`). -/
inductive ResumeValue where
  | dict (d : HumanDecisionDict)
  | nonDict (type_name : String)
deriving DecidableEq, Repr

/-- Python truthiness of an optional string (`None` and `""` are falsy). -/
def truthyStr : Option String → Bool
  | some s => s ≠ ""
  | none => false

/-- The payload `interrupt(approval_payload)` carries
(`src/nodes/approval.py`, lines 24-30): selected post, the up-to-two
alternatives `ranked[1:3]`, cycle number, follower count. -/
structure ApprovalPayload where
  selected_post : RankedPost
  alternatives : List RankedPost
  cycle_number : ℕ
  follower_count : ℤ
deriving DecidableEq, Repr

/-- The `selected_post is falsy` early return of `human_approval`
(`src/nodes/approval.py`, lines 18-22): reject plus a diagnostic, with no
`selected_post` key in the update (the field stays unchanged). -/
def approvalNoSelection (gs : GState) : GState :=
  { gs with human_decision := some "reject",
            errors := gs.errors ++ ["human_approval: No post selected for approval"] }

/-- A complete (replayed) run of the `human_approval` node in a resumed
execution, where `interrupt(...)` returns the injected value `v`
(`src/nodes/approval.py`, lines 15-60).  LangGraph replays the node from the
top on resume, so `selected` and `ranked` are re-read from the checkpointed
state.  Note the branches that omit the `selected_post` key from the update:
there the field keeps its previous value. -/
def human_approval_resumed (gs : GState) (v : ResumeValue) : GState :=
  match gs.selected_post with
  | none => approvalNoSelection gs
  | some selected =>
    match v with
    | .nonDict type_name =>
        { gs with human_decision := some "reject",
                  errors := gs.errors ++
                    ["human_approval: Invalid decision type: " ++ type_name] }
    | .dict d =>
        let ranked := gs.ranked_posts
        let hd0 := d.decision.getD "reject"
        let human_decision :=
          if hd0 = "approve" ∨ hd0 = "edit" ∨ hd0 = "reject" then hd0 else "reject"
        let selected1 :=
          match d.use_alternative with
          | some ua =>
              if human_decision = "approve" then
                let alt_index := ua + 1
                if 0 < alt_index ∧ alt_index < (ranked.length : ℤ) then
                  ranked.getD alt_index.toNat selected
                else selected
              else selected
          | none => selected
        let selected2 :=
          if human_decision = "edit" ∧ truthyStr d.edited_content then
            { selected1 with content := d.edited_content.getD "" }
          else selected1
        { gs with
            selected_post := if human_decision = "reject" then none else some selected2,
            human_decision := some human_decision,
            human_edited_content := d.edited_content,
            human_feedback := d.feedback }

/-- `_should_continue` (`src/graphs/creation_pipeline.py`, lines 106-109). -/
def shouldContinue (gs : GState) : String :=
  if gs.goal_reached then "end" else "continue"

/-- `_after_approval` (`src/graphs/creation_pipeline.py`, lines 112-119).
Every key of the TypedDict state is present from the initial state on
(initialised to `None`), so the `state.get` defaults never apply; a `None`
value compares unequal to every decision string and routes to `"end"`. -/
def afterApproval (gs : GState) : String :=
  match gs.human_decision with
  | some d =>
      if d = "approve" ∨ d = "edit" then "publish"
      else if d = "reject" ∧ truthyStr gs.human_feedback then "regenerate"
      else "end"
  | none => "end"

/-- One AI score entry of `AIScoreResult` (`src/nodes/ranking.py`): pydantic
validates `0 ≤ ai_score ≤ 10`. -/
structure AIScore where
  index : ℕ
  ai_score : ℚ
  reasoning : String
deriving DecidableEq, Repr

/-- The outcomes of all external collaborators consumed during one graph run
(LLM structured-output calls, knowledge base, embedding client, Threads
client, clock).  `research_viral_content` and `extract_patterns` combine
network fetches with LLM extraction and none of the checked claims depends on
their internals, so they are opaque state updates. -/
structure Env where
  follower_count : Except String ℤ
  research_update : GState → GState
  extract_update : GState → GState
  gen_result : Except String (List Variant)
  ai_result : Except String (List AIScore)
  pattern_perf : String → PatternPerformance
  recent_contents : List String
  cos_sim : String → String → ℚ
  publish_result : Except String String
  publish_follower : Except String ℤ
  now : ℤ

/-- `goal_check` node (`src/nodes/goal_check.py`). -/
def goal_check (env : Env) (gs : GState) : GState :=
  match env.follower_count with
  | .error e =>
      { gs with goal_reached := false,
                errors := gs.errors ++ ["goal_check: Failed to get follower count: " ++ e] }
  | .ok current =>
      { gs with current_follower_count := current,
                goal_reached := decide (gs.target_follower_count ≤ current) }

/-- `generate_post_variants` node (`src/nodes/generation.py`): empty pattern
list or a failed LLM call yield an empty variant list plus an error entry. -/
def generate_post_variants (env : Env) (gs : GState) : GState :=
  if gs.extracted_patterns = [] then
    { gs with generated_variants := [],
              errors := gs.errors ++ ["generate_post_variants: No patterns available"] }
  else
    match env.gen_result with
    | .error e =>
        { gs with generated_variants := [],
                  errors := gs.errors ++ ["generate_post_variants: LLM call failed: " ++ e] }
    | .ok variants => { gs with generated_variants := variants }

/-- `ai_scores.get(i, (5.0, "No score available"))` (`src/nodes/ranking.py`,
line 106).  The Python dict comprehension keeps the last entry for a
duplicated index, hence `getLast?` of the matching entries. -/
def aiScoreFor (scores : List AIScore) (i : ℕ) : ℚ × String :=
  match (scores.filter (fun s => s.index == i)).getLast? with
  | some s => (s.ai_score, s.reasoning)
  | none => (5, "No score available")

/-- The novelty computation of `rank_and_select` (`src/nodes/ranking.py`,
lines 109-115): average similarity against the recent posts, mapped through
`(1 - avg) * 10` and clipped to `[0, 10]`; the default `8.0` applies when
there is no recent-post history. -/
def noveltyScore (env : Env) (content : String) : ℚ :=
  if env.recent_contents.isEmpty then 8
  else
    let sims := env.recent_contents.map (fun rc => env.cos_sim content rc)
    let avg := sims.sum / (sims.length : ℚ)
    max 0 (min 10 ((1 - avg) * 10))

/-- The per-variant scoring of `rank_and_select` (`src/nodes/ranking.py`,
lines 104-131).  `pattern_scores` is a dict built over exactly the patterns
occurring in the variants, so `pattern_scores.get(v["pattern_used"], 5.0)`
always hits its key and equals the pattern's `effectiveness_score`. -/
def scoreVariant (env : Env) (scores : List AIScore) (i : ℕ) (v : Variant) : RankedPost :=
  let aiPair := aiScoreFor scores i
  let history_score := (env.pattern_perf v.pattern_used).effectiveness_score
  let novelty := noveltyScore env v.content
  { content := v.content
    pattern_used := v.pattern_used
    pillar := v.pillar
    ai_score := aiPair.1
    pattern_history_score := history_score
    novelty_score := novelty
    composite_score := RankedPost.compute_composite aiPair.1 history_score novelty
    rank := 0
    reasoning := aiPair.2 }

/-- The descending sort key of `ranked.sort(key=lambda r: r.composite_score,
reverse=True)`. -/
def compositeDesc (a b : RankedPost) : Prop :=
  b.composite_score ≤ a.composite_score

instance : DecidableRel compositeDesc :=
  fun a b => inferInstanceAs (Decidable (b.composite_score ≤ a.composite_score))

instance : IsTotal RankedPost compositeDesc :=
  ⟨fun a b => le_total b.composite_score a.composite_score⟩

instance : IsTrans RankedPost compositeDesc :=
  ⟨fun _ _ _ h1 h2 => le_trans h2 h1⟩

/-- `for i, r in enumerate(ranked): r.rank = i + 1` (`src/nodes/ranking.py`,
lines 134-135). -/
def assignRanks (posts : List RankedPost) : List RankedPost :=
  posts.enum.map (fun ir => { ir.2 with rank := ir.1 + 1 })

/-- The sorting step of `rank_and_select`: Python's `list.sort` is a stable
sort, and stable sorts by a total preorder are extensionally unique, so
insertion sort by the descending composite relation is an exact model;
followed by rank assignment. -/
def sortAndRank (posts : List RankedPost) : List RankedPost :=
  assignRanks (List.insertionSort compositeDesc posts)

/-- Scoring plus sorting plus rank assignment of `rank_and_select` on a
non-empty variant list with a successful AI-scoring call. -/
def rankVariants (env : Env) (scores : List AIScore) (variants : List Variant) :
    List RankedPost :=
  sortAndRank (variants.enum.map (fun iv => scoreVariant env scores iv.1 iv.2))

/-- `rank_and_select` node (`src/nodes/ranking.py`): full update, including
the no-variants and LLM-failure early returns; `selected_post` becomes the
head of the ranked list. -/
def rank_and_select (env : Env) (gs : GState) : GState :=
  if gs.generated_variants = [] then
    { gs with ranked_posts := [], selected_post := none,
              errors := gs.errors ++ ["rank_and_select: No variants to rank"] }
  else
    match env.ai_result with
    | .error e =>
        { gs with ranked_posts := [], selected_post := none,
                  errors := gs.errors ++ ["rank_and_select: LLM call failed: " ++ e] }
    | .ok scores =>
        let ranked := rankVariants env scores gs.generated_variants
        { gs with ranked_posts := ranked, selected_post := ranked.head? }

/-- `THREADS_MAX_LENGTH` (`src/nodes/publishing.py`). -/
def THREADS_MAX_LENGTH : ℕ := 500

/-- Calls `publish_post` makes on external collaborators; `publishCall` is
the Threads-client publish operation. -/
inductive PubEffect where
  | publishCall (content : String)
  | savePublished (post : PublishedPost)
deriving DecidableEq, Repr

/-- `publish_post` node (`src/nodes/publishing.py`, lines 14-73), returning
the merged state update and the list of performed external calls. -/
def publish_post (env : Env) (gs : GState) : GState × List PubEffect :=
  match gs.selected_post with
  | none =>
      ({ gs with published_post := none,
                 errors := gs.errors ++ ["publish_post: No post to publish"] }, [])
  | some selected =>
      let content := selected.content
      if content = "" then
        ({ gs with published_post := none,
                   errors := gs.errors ++ ["publish_post: Post content is empty"] }, [])
      else if THREADS_MAX_LENGTH < content.length then
        ({ gs with published_post := none,
                   errors := gs.errors ++
                     ["publish_post: Content exceeds 500 chars (" ++
                       toString content.length ++ ")"] }, [])
      else
        match env.publish_result with
        | .error e =>
            ({ gs with published_post := none,
                       errors := gs.errors ++ ["publish_post: Failed to publish: " ++ e] },
             [.publishCall content])
        | .ok threads_id =>
            let follower_count :=
              match env.publish_follower with
              | .ok c => c
              | .error _ => gs.current_follower_count
            let published : PublishedPost :=
              { threads_id := threads_id
                content := content
                pattern_used := selected.pattern_used
                pillar := selected.pillar
                published_at := env.now
                scheduled_metrics_check := env.now + 86400
                follower_count_at_publish := follower_count
                ai_score := selected.ai_score
                composite_score := selected.composite_score }
            ({ gs with published_post := some published },
             [.publishCall content, .savePublished published])

/-- `schedule_metrics_check` node (`src/nodes/publishing.py`, lines 76-87);
the `kb.add_pending_metrics` store write carries no state update. -/
def schedule_metrics_check (gs : GState) : GState :=
  match gs.published_post with
  | none =>
      { gs with errors := gs.errors ++ ["schedule_metrics_check: No published post to schedule"] }
  | some _ => gs

/-- The nodes of the creation graph (`build_creation_pipeline`). -/
inductive Node where
  | goal_check
  | research_viral_content
  | extract_patterns
  | generate_post_variants
  | rank_and_select
  | human_approval
  | publish_post
  | schedule_metrics_check
deriving DecidableEq, Repr

/-- Outcome of streaming the compiled creation graph: it runs to `END`,
pauses at the `interrupt` inside `human_approval`, or exceeds the recursion
limit (LangGraph raises `GraphRecursionError`). -/
inductive RunResult where
  | finished (gs : GState)
  | pausedAtApproval (gs : GState) (payload : ApprovalPayload)
  | fuelOut
deriving DecidableEq, Repr

/-- The interrupt payload built by `human_approval`
(`alternatives = ranked[1:3] if len(ranked) > 1 else []`, which equals
`(drop 1).take 2` in every case). -/
def approvalPayload (gs : GState) (selected : RankedPost) : ApprovalPayload :=
  { selected_post := selected
    alternatives := (gs.ranked_posts.drop 1).take 2
    cycle_number := gs.cycle_number
    follower_count := gs.current_follower_count }

/-- The conditional edge map out of `human_approval`
(`{"publish": publish_post, "regenerate": generate_post_variants,
"end": END}`). -/
def routeTarget (gs : GState) : Option Node :=
  match afterApproval gs with
  | "publish" => some .publish_post
  | "regenerate" => some .generate_post_variants
  | _ => none

/-- Streaming the creation graph from node `n` (`build_creation_pipeline`'s
edges), with fuel standing for LangGraph's recursion limit.  Returns the
outcome together with the trace of nodes that started executing. -/
def runFrom (env : Env) : ℕ → Node → GState → RunResult × List Node
  | 0, _, _ => (.fuelOut, [])
  | fuel+1, node, gs =>
    match node with
    | .goal_check =>
        let gs1 := goal_check env gs
        if shouldContinue gs1 = "continue" then
          let r := runFrom env fuel .research_viral_content gs1
          (r.1, .goal_check :: r.2)
        else (.finished gs1, [.goal_check])
    | .research_viral_content =>
        let r := runFrom env fuel .extract_patterns (env.research_update gs)
        (r.1, .research_viral_content :: r.2)
    | .extract_patterns =>
        let r := runFrom env fuel .generate_post_variants (env.extract_update gs)
        (r.1, .extract_patterns :: r.2)
    | .generate_post_variants =>
        let r := runFrom env fuel .rank_and_select (generate_post_variants env gs)
        (r.1, .generate_post_variants :: r.2)
    | .rank_and_select =>
        let r := runFrom env fuel .human_approval (rank_and_select env gs)
        (r.1, .rank_and_select :: r.2)
    | .human_approval =>
        match gs.selected_post with
        | some selected =>
            (.pausedAtApproval gs (approvalPayload gs selected), [.human_approval])
        | none =>
            let gs1 := approvalNoSelection gs
            match routeTarget gs1 with
            | some next =>
                let r := runFrom env fuel next gs1
                (r.1, .human_approval :: r.2)
            | none => (.finished gs1, [.human_approval])
    | .publish_post =>
        let r := runFrom env fuel .schedule_metrics_check (publish_post env gs).1
        (r.1, .publish_post :: r.2)
    | .schedule_metrics_check =>
        (.finished (schedule_metrics_check gs), [.schedule_metrics_check])

/-- Resuming a graph paused at `human_approval` with
`astream(Command(resume=decision), config)`: LangGraph replays the node with
`interrupt` returning the injected value, then follows `_after_approval`. -/
def resumeRun (env : Env) (fuel : ℕ) (gs : GState) (v : ResumeValue) :
    RunResult × List Node :=
  match routeTarget (human_approval_resumed gs v) with
  | some next =>
      ((runFrom env fuel next (human_approval_resumed gs v)).1,
       .human_approval :: (runFrom env fuel next (human_approval_resumed gs v)).2)
  | none => (.finished (human_approval_resumed gs v), [.human_approval])

/-- A `PendingInterrupt` registry entry (`self._pending_interrupts[thread_id]
= {"compiled": compiled, "config": config}`): the compiled graph handle is
the environment it closes over, and the thread's checkpointed state paused at
`human_approval` is what `astream(Command(resume=...), config)` resumes
from. -/
structure Pending where
  env : Env
  paused : GState

/-- What `compiled.aget_state(config)` exposes: the checkpointed values and
the pending-node set `next`. -/
structure CheckpointState where
  values : GState
  next : List String

/-- An APScheduler job as far as `_schedule_delayed_publish` is concerned:
the one-shot `delayed_publish_{thread_id}` job holding the stripped resume
decision. -/
structure Job where
  id : String
  thread_id : String
  run_date : ℤ
  decision : HumanDecisionDict
deriving DecidableEq, Repr

/-- The externally visible operations `resume_creation` performs:
streaming the graph resume (with the trace of nodes that ran), adding a
scheduler job, notifying the approval front-end. -/
inductive OrchEffect where
  | graphResume (thread_id : String) (trace : List Node)
  | scheduleJob (id : String)
  | notifyApproval (thread_id : String)
deriving DecidableEq, Repr

/-- The orchestrator state (`PipelineOrchestrator`): the in-memory
pending-interrupt registry, the checkpointer (as the result `aget_state`
would produce per thread), the scheduler's job list, the adapter environment
graphs are built against, ISO-datetime parsing, and the current time. -/
structure Orch where
  pending_interrupts : List (String × Pending)
  checkpointer : String → Except String (Option CheckpointState)
  jobs : List Job
  graph_env : Env
  parse_iso : String → Option ℤ
  now : ℤ

/-- Python dict lookup in the registry (keys are unique in a dict). -/
def lookupPending (reg : List (String × Pending)) (tid : String) : Option Pending :=
  (reg.find? (fun e => e.1 == tid)).map (·.2)

/-- `self._pending_interrupts.pop(thread_id, None)`'s removal effect. -/
def erasePending (reg : List (String × Pending)) (tid : String) :
    List (String × Pending) :=
  reg.filter (fun e => e.1 != tid)

/-- `self._pending_interrupts[thread_id] = pending`. -/
def insertPending (reg : List (String × Pending)) (tid : String) (p : Pending) :
    List (String × Pending) :=
  erasePending reg tid ++ [(tid, p)]

/-- Occurrences of `thread_id` in the registry (1 for a present dict key). -/
def countPending (reg : List (String × Pending)) (tid : String) : ℕ :=
  reg.countP (fun e => e.1 == tid)

/-- `_schedule_delayed_publish` (`src/orchestrator.py`, lines 236-270): parse
`publish_at` (invalid → log and return, no job), strip `publish_at` from the
decision, and add the one-shot `delayed_publish_{thread_id}` job with
`replace_existing=True` (at most one job per id). -/
def scheduleDelayedPublish (o : Orch) (tid : String) (d : HumanDecisionDict)
    (publish_at : String) : Orch × List OrchEffect :=
  match o.parse_iso publish_at with
  | none => (o, [])
  | some run_date =>
      let resume_decision := { d with publish_at := none }
      let jid := "delayed_publish_" ++ tid
      ({ o with jobs := o.jobs.filter (fun j => j.id != jid) ++
            [{ id := jid, thread_id := tid, run_date := run_date,
               decision := resume_decision }] },
       [.scheduleJob jid])

/-- `resume_creation` (`src/orchestrator.py`, lines 170-234): pop the
registry entry; if absent, rebuild the graph and ask the checkpointer whether
the persisted state is paused at `human_approval` (an `aget_state` exception
is caught and yields `None`, as does a state not paused there); a truthy
`publish_at` re-registers the interrupt and schedules a deferred job instead
of resuming; otherwise the graph resume is streamed, a new pause at
`human_approval` re-registers the entry and re-notifies the front-end, and a
recursion-limit overflow propagates as an exception. -/
def resume_creation (o : Orch) (tid : String) (d : HumanDecisionDict) (fuel : ℕ) :
    (Orch × Except String (Option GState)) × List OrchEffect :=
  let popped := lookupPending o.pending_interrupts tid
  let o1 := { o with pending_interrupts := erasePending o.pending_interrupts tid }
  let pending? : Option Pending :=
    match popped with
    | some p => some p
    | none =>
        match o.checkpointer tid with
        | .error _ => none
        | .ok none => none
        | .ok (some st) =>
            if "human_approval" ∈ st.next then
              some { env := o.graph_env, paused := st.values }
            else none
  match pending? with
  | none => ((o1, .ok none), [])
  | some pending =>
      if truthyStr d.publish_at then
        let o2 := { o1 with
          pending_interrupts := insertPending o1.pending_interrupts tid pending }
        let sched := scheduleDelayedPublish o2 tid d (d.publish_at.getD "")
        ((sched.1, .ok none), sched.2)
      else
        let run := resumeRun pending.env fuel pending.paused (.dict d)
        match run.1 with
        | .finished gs => ((o1, .ok (some gs)), [.graphResume tid run.2])
        | .pausedAtApproval gs _ =>
            (({ o1 with pending_interrupts :=
                  insertPending o1.pending_interrupts tid { pending with paused := gs } },
               .ok (some gs)),
             [.graphResume tid run.2, .notifyApproval tid])
        | .fuelOut => ((o1, .error "GraphRecursionError"), [.graphResume tid run.2])

/-- `n` successive `resume_creation` calls with the same decision (the
recursive re-interrupt loop: reject with feedback, regenerate, re-rank,
re-interrupt). -/
def iterResume (tid : String) (d : HumanDecisionDict) (fuel : ℕ) : ℕ → Orch → Orch
  | 0, o => o
  | n+1, o => iterResume tid d fuel n (resume_creation o tid d fuel).1.1

/-- A post with its `rank` field reset; ranking output coincides with the
scored input up to this field. -/
def clearRank (p : RankedPost) : RankedPost := { p with rank := 0 }

/-- The decision dict `{"decision": "reject", "feedback": f}` built by the
approval front-end for a reject with a reason. -/
def rejectFeedback (f : String) : HumanDecisionDict :=
  { decision := some "reject", feedback := some f }

/-- The initial state of a creation cycle (`run_creation_pipeline`,
`src/orchestrator.py`, lines 91-106): transient fields zeroed, only the
follower target and cycle number carried. -/
def initialState (cycle : ℕ) (target : ℤ) : GState :=
  { current_follower_count := 0
    target_follower_count := target
    goal_reached := false
    viral_posts := []
    extracted_patterns := []
    generated_variants := []
    ranked_posts := []
    selected_post := none
    human_decision := none
    human_edited_content := none
    human_feedback := none
    published_post := none
    cycle_number := cycle
    errors := [] }

/-! Concrete fixtures used to evaluate the theorems on explicit inputs. -/

/-- A concrete ranked post used in fixtures. -/
def wPost (name : String) (comp : ℚ) : RankedPost :=
  { content := name
    pattern_used := "hot_take"
    pillar := "tips"
    ai_score := 8
    pattern_history_score := 5
    novelty_score := 8
    composite_score := comp
    rank := 0
    reasoning := "" }

/-- An environment in which every collaborator answers benignly. -/
def pureEnv : Env :=
  { follower_count := .ok 0
    research_update := id
    extract_update := id
    gen_result := .ok []
    ai_result := .ok []
    pattern_perf := fun p => { pattern_name := p }
    recent_contents := []
    cos_sim := fun _ _ => 0
    publish_result := .ok "threads_1"
    publish_follower := .ok 0
    now := 0 }

/-- A state paused at approval with a selected post. -/
def wSelState : GState :=
  { initialState 1 100 with selected_post := some (wPost "r0" 9) }

/-- A state paused at approval with four ranked posts. -/
def wRankedState : GState :=
  { initialState 1 100 with
      ranked_posts := [wPost "r0" 9, wPost "r1" 8, wPost "r2" 7, wPost "r3" 6]
      selected_post := some (wPost "r0" 9) }

/-- The single variant of end-to-end scenario A. -/
def c6Variant : Variant :=
  { content := "single variant", pattern_used := "hot_take", pillar := "tips" }

/-- Scenario A environment: one AI score of 8.0, a pattern with no usage
history, empty recent-post history. -/
def c6Env : Env :=
  { pureEnv with ai_result := .ok [⟨0, 8, "Great hook"⟩], gen_result := .ok [c6Variant] }

/-- Scenario A state entering `rank_and_select`. -/
def c6State : GState :=
  { initialState 1 100 with generated_variants := [c6Variant] }

/-- The ranked post scenario A actually produces: exploration-bonus history
score 5.0, no-history novelty 8.0, composite 7.1. -/
def c6Ranked : RankedPost :=
  { content := "single variant"
    pattern_used := "hot_take"
    pillar := "tips"
    ai_score := 8
    pattern_history_score := 5
    novelty_score := 8
    composite_score := 71/10
    rank := 1
    reasoning := "Great hook" }

/-- An orchestrator with an empty registry and an empty checkpointer. -/
def orchEmpty : Orch :=
  { pending_interrupts := []
    checkpointer := fun _ => .ok none
    jobs := []
    graph_env := pureEnv
    parse_iso := fun _ => none
    now := 0 }

/-- A pending interrupt whose graph handle answers benignly. -/
def wPending : Pending := { env := pureEnv, paused := wSelState }

/-- An orchestrator holding one pending interrupt for thread `t1`, with an
ISO parser accepting one fixed future timestamp. -/
def orchOnePending : Orch :=
  { pending_interrupts := [("t1", wPending)]
    checkpointer := fun _ => .ok none
    jobs := []
    graph_env := pureEnv
    parse_iso := fun s => if s = "2031-01-01T10:00" then some 42 else none
    now := 0 }

/-- A decision scheduling a delayed publish at the accepted timestamp. -/
def wDelayedDecision : HumanDecisionDict :=
  { decision := some "approve", publish_at := some "2031-01-01T10:00" }

/-- Graph environment for the re-interrupt fixture: regeneration yields one
variant and the AI scorer succeeds. -/
def c3Env : Env :=
  { pureEnv with gen_result := .ok [c6Variant], ai_result := .ok [⟨0, 8, "g"⟩] }

/-- Paused state for the re-interrupt fixture: a selected post and a
non-empty extracted pattern list. -/
def c3Paused : GState :=
  { initialState 1 100 with
      selected_post := some (wPost "r0" 9)
      extracted_patterns := ["pat"] }

/-- Two variants used to instantiate the ranking properties. -/
def c7Variants : List Variant :=
  [{ content := "A", pattern_used := "hot_take", pillar := "tips" },
   { content := "B", pattern_used := "list", pillar := "career" }]

/-- Two AI scores used to instantiate the ranking properties. -/
def c7Scores : List AIScore :=
  [⟨0, 8, "ga"⟩, ⟨1, 6, "gb"⟩]

/-- Orchestrator holding the re-interrupt fixture thread. -/
def orchReinterrupt : Orch :=
  { pending_interrupts := [("t1", { env := c3Env, paused := c3Paused })]
    checkpointer := fun _ => .ok none
    jobs := []
    graph_env := pureEnv
    parse_iso := fun _ => none
    now := 0 }

/-! ## Theorems -/

/-- C4: for every decision dict whose `decision` value is not one of
`approve`, `edit`, `reject`, the `human_approval` node resolves the decision
to `reject` and returns state with `selected_post` set to null. -/
theorem c4_unrecognized_decision_rejects (gs : GState) (d : HumanDecisionDict)
    (v : String) (hv : d.decision = some v)
    (hna : v ≠ "approve") (hne : v ≠ "edit") (hnr : v ≠ "reject") :
    (human_approval_resumed gs (.dict d)).human_decision = some "reject" ∧
    (human_approval_resumed gs (.dict d)).selected_post = none := by
  unfold human_approval_resumed
  cases hsel : gs.selected_post with
  | none => simp [approvalNoSelection, hsel]
  | some sel => simp [hv, hna, hne, hnr]

/-- Witness for C4 at the concrete decision value `"maybe"`. -/
theorem c4_witness :
    (human_approval_resumed wSelState
        (.dict { decision := some "maybe" })).human_decision = some "reject" ∧
    (human_approval_resumed wSelState
        (.dict { decision := some "maybe" })).selected_post = none :=
  c4_unrecognized_decision_rejects wSelState { decision := some "maybe" } "maybe"
    rfl (by decide) (by decide) (by decide)

/-- C5 counterexample: the non-dict decision branch of `human_approval` sets
`human_decision` to `reject` but omits `selected_post` from the update, so a
previously selected post survives — the claimed invariant
`human_decision == reject → selected_post is null` fails on that branch. -/
theorem c5_counterexample :
    (human_approval_resumed wSelState (.nonDict "str")).human_decision = some "reject" ∧
    (human_approval_resumed wSelState (.nonDict "str")).selected_post =
      some (wPost "r0" 9) ∧
    (human_approval_resumed wSelState (.nonDict "str")).selected_post ≠ none := by
  decide

/-- C5 amended: whenever a run of `human_approval` on a dict-shaped decision
yields `human_decision == reject`, `selected_post` is null; the non-dict
branch (and `rank_and_select` during a regeneration loop) can leave a
non-null `selected_post` next to `human_decision == reject`. -/
theorem c5_amended_reject_clears_selected (gs : GState) (d : HumanDecisionDict)
    (h : (human_approval_resumed gs (.dict d)).human_decision = some "reject") :
    (human_approval_resumed gs (.dict d)).selected_post = none := by
  cases hsel : gs.selected_post with
  | none => simp [human_approval_resumed, approvalNoSelection, hsel]
  | some sel =>
      simp only [human_approval_resumed, hsel] at h ⊢
      have hh := Option.some.inj h
      rw [hh]
      simp

/-- Witness for the amended C5 at a concrete reject decision. -/
theorem c5_amended_witness :
    (human_approval_resumed wSelState
        (.dict { decision := some "reject" })).selected_post = none :=
  c5_amended_reject_clears_selected wSelState { decision := some "reject" } (by decide)

/-- C9 counterexample: with four ranked posts, `use_alternative = 2` is
outside the presented alternatives `ranked[1:3]` (indices 0 and 1), yet the
code's bounds check `0 < i+1 < len(ranked)` passes and substitutes
`ranked[3]` — `selected_post` does not stay unchanged. -/
theorem c9_counterexample :
    (human_approval_resumed wRankedState
        (.dict { decision := some "approve", use_alternative := some 2 })).selected_post =
      some (wPost "r3" 6) ∧
    wPost "r3" 6 ≠ wPost "r0" 9 := by
  decide

/-- C9 amended: the `use_alternative` substitution is bounds-checked against
the full ranked list, not the presented alternatives: for decision `approve`
with `use_alternative = i`, the post becomes `ranked[i+1]` whenever
`0 < i+1 < len(ranked)` (which for `i ∈ {0,1}` is the `i`-th presented
alternative) and stays unchanged otherwise; `reject` clears the selection and
`edit` without edited content performs no substitution. -/
theorem c9_amended_alt_bounds (gs : GState) (sel : RankedPost)
    (d : HumanDecisionDict) (i : ℤ)
    (hsel : gs.selected_post = some sel) (hu : d.use_alternative = some i) :
    (d.decision = some "approve" →
      (human_approval_resumed gs (.dict d)).selected_post =
        (if 0 < i + 1 ∧ i + 1 < (gs.ranked_posts.length : ℤ) then
          some (gs.ranked_posts.getD (i + 1).toNat sel) else some sel)) ∧
    (d.decision = some "reject" →
      (human_approval_resumed gs (.dict d)).selected_post = none) ∧
    (d.decision = some "edit" → d.edited_content = none →
      (human_approval_resumed gs (.dict d)).selected_post = some sel) := by
  refine ⟨fun hd => ?_, fun hd => ?_, fun hd he => ?_⟩
  · unfold human_approval_resumed
    by_cases hb : 0 < i + 1 ∧ i + 1 < (gs.ranked_posts.length : ℤ)
    · simp [hsel, hd, hu, hb]
    · simp [hsel, hd, hu, hb]
  · unfold human_approval_resumed
    simp [hsel, hd, hu]
  · unfold human_approval_resumed
    simp [hsel, hd, hu, he, truthyStr]

/-- Witness for the amended C9: `use_alternative = 0` selects the first
presented alternative `ranked[1]`. -/
theorem c9_amended_witness :
    (human_approval_resumed wRankedState
        (.dict { decision := some "approve", use_alternative := some 0 })).selected_post =
      (if 0 < (0 : ℤ) + 1 ∧ (0 : ℤ) + 1 < (wRankedState.ranked_posts.length : ℤ) then
        some (wRankedState.ranked_posts.getD ((0 : ℤ) + 1).toNat (wPost "r0" 9))
      else some (wPost "r0" 9)) :=
  (c9_amended_alt_bounds wRankedState (wPost "r0" 9)
    { decision := some "approve", use_alternative := some 0 } 0 rfl rfl).1 rfl

/-- C10: whenever `selected_post` is absent, has empty content, or has
content longer than 500 characters, `publish_post` returns a null
`published_post`, appends exactly one error, and never calls the platform
client's publish operation; conversely a publish call is attempted only for
non-empty content of at most 500 characters. -/
theorem c10_publish_guards (env : Env) (gs : GState) :
    ((gs.selected_post = none ∨
      ∃ sel, gs.selected_post = some sel ∧
        (sel.content = "" ∨ THREADS_MAX_LENGTH < sel.content.length)) →
      (publish_post env gs).1.published_post = none ∧
      (∃ m, (publish_post env gs).1.errors = gs.errors ++ [m]) ∧
      ∀ c, PubEffect.publishCall c ∉ (publish_post env gs).2) ∧
    (∀ c, PubEffect.publishCall c ∈ (publish_post env gs).2 →
      ∃ sel, gs.selected_post = some sel ∧ sel.content = c ∧
        c ≠ "" ∧ c.length ≤ THREADS_MAX_LENGTH) := by
  constructor
  · rintro (hnone | ⟨sel, hsel, hbad⟩)
    · simp [publish_post, hnone]
    · rcases hbad with hempty | hlong
      · simp [publish_post, hsel, hempty]
      · have hne : sel.content ≠ "" := by
          intro h
          rw [h] at hlong
          simp [THREADS_MAX_LENGTH] at hlong
        simp [publish_post, hsel, hne, hlong]
  · intro c hc
    unfold publish_post at hc
    cases hsel : gs.selected_post with
    | none => simp [hsel] at hc
    | some sel =>
        simp only [hsel] at hc
        by_cases hempty : sel.content = ""
        · simp [hempty] at hc
        · by_cases hlong : THREADS_MAX_LENGTH < sel.content.length
          · simp [hempty, hlong] at hc
          · refine ⟨sel, rfl, ?_, ?_, ?_⟩
            · cases hpub : env.publish_result with
              | error e => simp [hempty, hlong, hpub] at hc; exact hc.symm
              | ok tid =>
                  simp [hempty, hlong, hpub] at hc
                  exact hc.symm
            · intro h
              apply hempty
              cases hpub : env.publish_result with
              | error e => simp [hempty, hlong, hpub] at hc; rw [← hc, h]
              | ok tid => simp [hempty, hlong, hpub] at hc; rw [← hc, h]
            · cases hpub : env.publish_result with
              | error e =>
                  simp [hempty, hlong, hpub] at hc
                  rw [hc]
                  simp only [THREADS_MAX_LENGTH] at hlong ⊢
                  omega
              | ok tid =>
                  simp [hempty, hlong, hpub] at hc
                  rw [hc]
                  simp only [THREADS_MAX_LENGTH] at hlong ⊢
                  omega

/-- Witness for C10 at a state with no selected post. -/
theorem c10_witness :
    (publish_post pureEnv (initialState 1 100)).1.published_post = none ∧
    (∃ m, (publish_post pureEnv (initialState 1 100)).1.errors =
      (initialState 1 100).errors ++ [m]) ∧
    ∀ c, PubEffect.publishCall c ∉ (publish_post pureEnv (initialState 1 100)).2 :=
  (c10_publish_guards pureEnv (initialState 1 100)).1 (Or.inl rfl)

/-- C8: in a creation cycle where `goal_reached` holds after `goal_check`
(the fetched follower count meets the target), the graph goes directly to
`END`: the only node that executes is `goal_check`. -/
theorem c8_goal_reached_ends (env : Env) (gs : GState) (fuel : ℕ) (c : ℤ)
    (hfc : env.follower_count = .ok c)
    (hge : gs.target_follower_count ≤ c) (hfuel : fuel ≠ 0) :
    (∃ gs', (runFrom env fuel .goal_check gs).1 = .finished gs' ∧
      gs'.goal_reached = true) ∧
    (runFrom env fuel .goal_check gs).2 = [Node.goal_check] := by
  obtain ⟨k, rfl⟩ : ∃ k, fuel = k + 1 := ⟨fuel - 1, by omega⟩
  have hgr : (goal_check env gs).goal_reached = true := by
    simp [goal_check, hfc, hge]
  have hsc : shouldContinue (goal_check env gs) ≠ "continue" := by
    simp [shouldContinue, hgr]
  refine ⟨⟨goal_check env gs, ?_, hgr⟩, ?_⟩ <;>
    simp [runFrom, hsc]

/-- Witness for C8: follower count 100 meets target 100. -/
theorem c8_witness :
    (∃ gs', (runFrom { pureEnv with follower_count := .ok 100 } 1 .goal_check
        (initialState 1 100)).1 = .finished gs' ∧ gs'.goal_reached = true) ∧
    (runFrom { pureEnv with follower_count := .ok 100 } 1 .goal_check
        (initialState 1 100)).2 = [Node.goal_check] :=
  c8_goal_reached_ends { pureEnv with follower_count := .ok 100 }
    (initialState 1 100) 1 100 rfl (by decide) (by decide)

/-- C6 counterexample: in end-to-end scenario A (one variant, AI score 8.0,
pattern with no usage history, empty recent-post history) the code's novelty
default for an empty history is 8.0, not the claimed maximum 10.0, so the
composite is 0.4*8.0 + 0.3*5.0 + 0.3*8.0 = 7.1, not 7.7. -/
theorem c6_counterexample :
    (rank_and_select c6Env c6State).selected_post = some c6Ranked ∧
    c6Ranked.novelty_score = 8 ∧
    c6Ranked.composite_score = 71/10 ∧
    c6Ranked.composite_score ≠ 77/10 := by
  refine ⟨?_, rfl, rfl, by norm_num [c6Ranked]⟩
  simp only [rank_and_select, c6State, c6Env, pureEnv, c6Variant, initialState]
  norm_num [rankVariants, sortAndRank, assignRanks, scoreVariant, aiScoreFor, noveltyScore,
    List.insertionSort, List.orderedInsert, List.enum, List.enumFrom,
    PatternPerformance.effectiveness_score, RankedPost.compute_composite,
    AI_WEIGHT, HISTORY_WEIGHT, NOVELTY_WEIGHT, c6Ranked]

/-- C6 amended: scenario A yields history score 5.0 (exploration bonus),
novelty 8.0 (the empty-history default), composite
0.4*8.0 + 0.3*5.0 + 0.3*8.0 = 7.1, rank 1, and that post becomes
`selected_post` of the emitted interrupt payload. -/
theorem c6_amended_scenario :
    (rank_and_select c6Env c6State).selected_post = some c6Ranked ∧
    c6Ranked.pattern_history_score = 5 ∧
    c6Ranked.novelty_score = 8 ∧
    c6Ranked.composite_score = AI_WEIGHT * 8 + HISTORY_WEIGHT * 5 + NOVELTY_WEIGHT * 8 ∧
    c6Ranked.rank = 1 ∧
    (runFrom c6Env 2 .rank_and_select c6State).1 =
      .pausedAtApproval (rank_and_select c6Env c6State)
        (approvalPayload (rank_and_select c6Env c6State) c6Ranked) := by
  have hsel : (rank_and_select c6Env c6State).selected_post = some c6Ranked := by
    simp only [rank_and_select, c6State, c6Env, pureEnv, c6Variant, initialState]
    norm_num [rankVariants, sortAndRank, assignRanks, scoreVariant, aiScoreFor, noveltyScore,
      List.insertionSort, List.orderedInsert, List.enum, List.enumFrom,
      PatternPerformance.effectiveness_score, RankedPost.compute_composite,
      AI_WEIGHT, HISTORY_WEIGHT, NOVELTY_WEIGHT, c6Ranked]
  refine ⟨hsel, rfl, rfl,
    by norm_num [c6Ranked, AI_WEIGHT, HISTORY_WEIGHT, NOVELTY_WEIGHT], rfl, ?_⟩
  rw [show (2 : ℕ) = 1 + 1 from rfl]
  simp only [runFrom, hsel]

/-- Rank assignment does not change composite scores. -/
lemma assignRanks_map_composite (l : List RankedPost) :
    (assignRanks l).map (fun p => p.composite_score) =
      l.map (fun p => p.composite_score) := by
  simp only [assignRanks, List.map_map]
  have h : ((fun p : RankedPost => p.composite_score) ∘
      fun ir : ℕ × RankedPost => { ir.2 with rank := ir.1 + 1 }) =
      ((fun p : RankedPost => p.composite_score) ∘ Prod.snd) := rfl
  rw [h, ← List.map_map, List.enum_map_snd]

/-- Rank assignment is invisible modulo `clearRank`. -/
lemma assignRanks_map_clearRank (l : List RankedPost) :
    (assignRanks l).map clearRank = l.map clearRank := by
  simp only [assignRanks, List.map_map]
  have h : (clearRank ∘ fun ir : ℕ × RankedPost => { ir.2 with rank := ir.1 + 1 }) =
      (clearRank ∘ Prod.snd) := rfl
  rw [h, ← List.map_map, List.enum_map_snd]

/-- Rank assignment produces the ranks `1..N` in order. -/
lemma assignRanks_map_rank (l : List RankedPost) :
    (assignRanks l).map (fun p => p.rank) = List.range' 1 l.length := by
  simp only [assignRanks, List.map_map]
  have h : ((fun p : RankedPost => p.rank) ∘
      fun ir : ℕ × RankedPost => { ir.2 with rank := ir.1 + 1 }) =
      ((fun i => 1 + i) ∘ Prod.fst) := by
    funext ir
    simp [Nat.add_comm]
  rw [h, ← List.map_map, List.enum_map_fst, ← List.range'_eq_map_range]

/-- `clearRank` is the identity on a list of unranked posts. -/
lemma map_clearRank_of_rank_zero {l : List RankedPost} (h : ∀ p ∈ l, p.rank = 0) :
    l.map clearRank = l := by
  rw [List.map_congr_left (g := id) ?_, List.map_id]
  intro p hp
  have := h p hp
  cases p
  simp_all [clearRank]

/-- The AI score that `rank_and_select` uses is within the pydantic bounds
whenever every returned score is. -/
lemma aiScoreFor_bounds (scores : List AIScore) (i : ℕ)
    (hai : ∀ s ∈ scores, 0 ≤ s.ai_score ∧ s.ai_score ≤ 10) :
    0 ≤ (aiScoreFor scores i).1 ∧ (aiScoreFor scores i).1 ≤ 10 := by
  unfold aiScoreFor
  cases hg : (scores.filter (fun s => s.index == i)).getLast? with
  | none => norm_num
  | some s =>
      exact hai s (List.mem_of_mem_filter (List.mem_of_getLast?_eq_some hg))

/-- The novelty score is always within `[0, 10]`. -/
lemma noveltyScore_bounds (env : Env) (c : String) :
    0 ≤ noveltyScore env c ∧ noveltyScore env c ≤ 10 := by
  unfold noveltyScore
  split
  · norm_num
  · exact ⟨le_max_left 0 _, max_le (by norm_num) (min_le_left _ _)⟩

/-- For inputs within `[0, 10]` the unclipped weighted sum already lies in
`[0, 10]`, so it equals its clipped form. -/
lemma compute_composite_clip (a h n : ℚ) (ha0 : 0 ≤ a) (ha1 : a ≤ 10)
    (hh0 : 0 ≤ h) (hh1 : h ≤ 10) (hn0 : 0 ≤ n) (hn1 : n ≤ 10) :
    RankedPost.compute_composite a h n =
      max 0 (min 10 (AI_WEIGHT * a + HISTORY_WEIGHT * h + NOVELTY_WEIGHT * n)) := by
  have h0 : 0 ≤ AI_WEIGHT * a + HISTORY_WEIGHT * h + NOVELTY_WEIGHT * n := by
    unfold AI_WEIGHT HISTORY_WEIGHT NOVELTY_WEIGHT
    nlinarith
  have h10 : AI_WEIGHT * a + HISTORY_WEIGHT * h + NOVELTY_WEIGHT * n ≤ 10 := by
    unfold AI_WEIGHT HISTORY_WEIGHT NOVELTY_WEIGHT
    nlinarith
  rw [RankedPost.compute_composite, min_eq_right h10, max_eq_right h0]

/-- Every output of `rankVariants` carries the scores of one of the input
variants, with the composite computed by `compute_composite`. -/
lemma mem_rankVariants {env : Env} {scores : List AIScore} {variants : List Variant}
    {p : RankedPost} (hp : p ∈ rankVariants env scores variants) :
    ∃ i v, v ∈ variants ∧ p.ai_score = (aiScoreFor scores i).1 ∧
      p.pattern_history_score = (env.pattern_perf v.pattern_used).effectiveness_score ∧
      p.novelty_score = noveltyScore env v.content ∧
      p.composite_score =
        RankedPost.compute_composite p.ai_score p.pattern_history_score p.novelty_score := by
  simp only [rankVariants, sortAndRank, assignRanks, List.mem_map] at hp
  obtain ⟨ir, hir, rfl⟩ := hp
  have h2 := List.snd_mem_of_mem_enum hir
  rw [List.mem_insertionSort, List.mem_map] at h2
  obtain ⟨iv, hiv, hsv⟩ := h2
  refine ⟨iv.1, iv.2, List.snd_mem_of_mem_enum hiv, ?_, ?_, ?_, ?_⟩ <;>
    rw [← hsv] <;> rfl

/-- All posts produced by the scoring step are unranked. -/
lemma scored_rank_zero (env : Env) (scores : List AIScore) (variants : List Variant) :
    ∀ p ∈ variants.enum.map (fun iv => scoreVariant env scores iv.1 iv.2), p.rank = 0 := by
  intro p hp
  rw [List.mem_map] at hp
  obtain ⟨iv, _, rfl⟩ := hp
  rfl

/-- The ranking output has one entry per input variant. -/
lemma rankVariants_length (env : Env) (scores : List AIScore) (variants : List Variant) :
    (rankVariants env scores variants).length = variants.length := by
  simp [rankVariants, sortAndRank, assignRanks, List.length_insertionSort,
    List.enum_length]

/-- C7: the composite score equals the clipped weighted sum
`0.4*ai + 0.3*history + 0.3*novelty`, the ranking is sorted by composite
descending, every input variant appears exactly once in the output (a
permutation of the scored inputs), ranks are `1..N`, and the sort is stable
(equal-composite posts keep their input order). -/
theorem c7_ranking (env : Env) (scores : List AIScore) (variants : List Variant)
    (hai : ∀ s ∈ scores, 0 ≤ s.ai_score ∧ s.ai_score ≤ 10)
    (hhist : ∀ v ∈ variants,
      0 ≤ (env.pattern_perf v.pattern_used).effectiveness_score ∧
      (env.pattern_perf v.pattern_used).effectiveness_score ≤ 10) :
    (∀ p ∈ rankVariants env scores variants,
      p.composite_score = max 0 (min 10 (AI_WEIGHT * p.ai_score +
        HISTORY_WEIGHT * p.pattern_history_score + NOVELTY_WEIGHT * p.novelty_score))) ∧
    ((rankVariants env scores variants).map
      (fun p => p.composite_score)).Pairwise (fun a b => b ≤ a) ∧
    ((rankVariants env scores variants).map clearRank).Perm
      (variants.enum.map (fun iv => scoreVariant env scores iv.1 iv.2)) ∧
    ((rankVariants env scores variants).map (fun p => p.rank)
      = List.range' 1 variants.length) ∧
    (∀ a b : RankedPost, b.composite_score ≤ a.composite_score →
      List.Sublist [a, b] (variants.enum.map (fun iv => scoreVariant env scores iv.1 iv.2)) →
      List.Sublist [a, b] ((rankVariants env scores variants).map clearRank)) := by
  set scored := variants.enum.map (fun iv => scoreVariant env scores iv.1 iv.2) with hscored
  have hzero : ∀ p ∈ scored, p.rank = 0 := scored_rank_zero env scores variants
  have hzero' : ∀ p ∈ List.insertionSort compositeDesc scored, p.rank = 0 := by
    intro p hp
    exact hzero p ((List.mem_insertionSort compositeDesc).mp hp)
  have hmapcr : (rankVariants env scores variants).map clearRank =
      List.insertionSort compositeDesc scored := by
    rw [rankVariants, sortAndRank, ← hscored, assignRanks_map_clearRank,
      map_clearRank_of_rank_zero hzero']
  refine ⟨?_, ?_, ?_, ?_, ?_⟩
  · intro p hp
    obtain ⟨i, v, hv, hai', hh', hn', hc'⟩ := mem_rankVariants hp
    have b1 := aiScoreFor_bounds scores i hai
    have b2 := hhist v hv
    have b3 := noveltyScore_bounds env v.content
    rw [hc']
    exact compute_composite_clip _ _ _ (hai' ▸ b1.1) (hai' ▸ b1.2)
      (hh' ▸ b2.1) (hh' ▸ b2.2) (hn' ▸ b3.1) (hn' ▸ b3.2)
  · rw [rankVariants, sortAndRank, ← hscored, assignRanks_map_composite]
    rw [List.pairwise_map]
    exact List.sorted_insertionSort compositeDesc scored
  · rw [hmapcr]
    exact List.perm_insertionSort compositeDesc scored
  · rw [rankVariants, sortAndRank, ← hscored, assignRanks_map_rank,
      List.length_insertionSort, hscored, List.length_map, List.enum_length]
  · intro a b hab hsub
    rw [hmapcr]
    exact List.pair_sublist_insertionSort (r := compositeDesc) hab hsub

/-- Witness for C7 at two concrete variants with AI scores 8 and 6. -/
theorem c7_witness :
    (∀ p ∈ rankVariants pureEnv c7Scores c7Variants,
      p.composite_score = max 0 (min 10 (AI_WEIGHT * p.ai_score +
        HISTORY_WEIGHT * p.pattern_history_score + NOVELTY_WEIGHT * p.novelty_score))) ∧
    ((rankVariants pureEnv c7Scores c7Variants).map
      (fun p => p.composite_score)).Pairwise (fun a b => b ≤ a) ∧
    ((rankVariants pureEnv c7Scores c7Variants).map clearRank).Perm
      (c7Variants.enum.map (fun iv => scoreVariant pureEnv c7Scores iv.1 iv.2)) ∧
    ((rankVariants pureEnv c7Scores c7Variants).map (fun p => p.rank)
      = List.range' 1 c7Variants.length) ∧
    (∀ a b : RankedPost, b.composite_score ≤ a.composite_score →
      List.Sublist [a, b]
        (c7Variants.enum.map (fun iv => scoreVariant pureEnv c7Scores iv.1 iv.2)) →
      List.Sublist [a, b] ((rankVariants pureEnv c7Scores c7Variants).map clearRank)) :=
  c7_ranking pureEnv c7Scores c7Variants (by decide) (by decide)

/-- No entry of the erased registry matches the erased key. -/
lemma find?_erasePending (reg : List (String × Pending)) (tid : String) :
    (erasePending reg tid).find? (fun e => e.1 == tid) = none := by
  rw [List.find?_eq_none]
  intro x hx
  have h := List.of_mem_filter hx
  simpa using h

/-- Looking up a freshly inserted registry entry yields that entry. -/
lemma lookupPending_insert (reg : List (String × Pending)) (tid : String) (p : Pending) :
    lookupPending (insertPending reg tid p) tid = some p := by
  unfold lookupPending insertPending
  rw [List.find?_append, find?_erasePending]
  simp

/-- Dict-style insertion leaves exactly one entry under the inserted key. -/
lemma countPending_insert (reg : List (String × Pending)) (tid : String) (p : Pending) :
    countPending (insertPending reg tid p) tid = 1 := by
  unfold countPending insertPending
  rw [List.countP_append]
  have h1 : (erasePending reg tid).countP (fun e => e.1 == tid) = 0 := by
    rw [List.countP_eq_zero]
    intro x hx
    have h := List.of_mem_filter hx
    simpa using h
  rw [h1]
  simp

/-- `replace_existing=True` job insertion leaves exactly one job under the
inserted id. -/
lemma jobs_replace_count (jobs : List Job) (jid : String) (j : Job) (hj : j.id = jid) :
    ((jobs.filter (fun x => x.id != jid)) ++ [j]).countP (fun x => x.id == jid) = 1 := by
  rw [List.countP_append]
  have h1 : (jobs.filter (fun x => x.id != jid)).countP (fun x => x.id == jid) = 0 := by
    rw [List.countP_eq_zero]
    intro x hx
    have h := List.of_mem_filter hx
    simpa using h
  rw [h1]
  simp [List.countP_cons, hj]

/-- C1: for a thread with no registry entry whose checkpointed state is
unreadable, absent, or not paused at `human_approval`, `resume_creation`
returns the no-such-pending outcome (`None`, distinguishable from the state
dict a successful resume returns) without raising, for any decision dict. -/
theorem c1_no_pending_resume (o : Orch) (tid : String) (d : HumanDecisionDict)
    (fuel : ℕ)
    (hreg : lookupPending o.pending_interrupts tid = none)
    (hck : ∀ st, o.checkpointer tid = .ok (some st) → "human_approval" ∉ st.next) :
    (resume_creation o tid d fuel).1.2 = .ok none ∧
    (resume_creation o tid d fuel).2 = [] := by
  unfold resume_creation
  simp only [hreg]
  cases hc : o.checkpointer tid with
  | error e => simp
  | ok st? =>
      cases st? with
      | none => simp
      | some st =>
          have h := hck st hc
          simp [h]

/-- Witness for C1 on an orchestrator with an empty registry and an empty
checkpointer. -/
theorem c1_witness :
    (resume_creation orchEmpty "ghost" { decision := some "approve" } 5).1.2 = .ok none ∧
    (resume_creation orchEmpty "ghost" { decision := some "approve" } 5).2 = [] :=
  c1_no_pending_resume orchEmpty "ghost" { decision := some "approve" } 5 rfl
    (fun st h => by simp [orchEmpty] at h)

/-- C2: a decision with a valid future `publish_at` does not invoke the graph
resume synchronously, leaves the `PendingInterrupt` for the thread present in
the registry (the same entry), creates exactly one deferred one-shot job
(holding the decision stripped of `publish_at`, at the parsed run date), and
a later `resume_creation` with the same decision minus `publish_at` does
stream the graph resume. -/
theorem c2_delayed_publish (o : Orch) (tid : String) (p : Pending)
    (d : HumanDecisionDict) (s : String) (t : ℤ) (fuel : ℕ)
    (hp : lookupPending o.pending_interrupts tid = some p)
    (hpa : d.publish_at = some s) (hs : s ≠ "")
    (ht : o.parse_iso s = some t) (hfut : o.now < t) :
    (∀ tr, OrchEffect.graphResume tid tr ∉ (resume_creation o tid d fuel).2) ∧
    (resume_creation o tid d fuel).1.2 = .ok none ∧
    lookupPending (resume_creation o tid d fuel).1.1.pending_interrupts tid = some p ∧
    (resume_creation o tid d fuel).1.1.jobs.countP
      (fun j => j.id == "delayed_publish_" ++ tid) = 1 ∧
    (∃ j ∈ (resume_creation o tid d fuel).1.1.jobs,
      j.id = "delayed_publish_" ++ tid ∧
      j.decision = { d with publish_at := none } ∧ j.run_date = t) ∧
    (∃ tr, OrchEffect.graphResume tid tr ∈
      (resume_creation (resume_creation o tid d fuel).1.1 tid
        { d with publish_at := none } fuel).2) := by
  have hres : resume_creation o tid d fuel =
      (({ o with
            pending_interrupts :=
              insertPending (erasePending o.pending_interrupts tid) tid p,
            jobs := o.jobs.filter (fun j => j.id != "delayed_publish_" ++ tid) ++
              [{ id := "delayed_publish_" ++ tid, thread_id := tid, run_date := t,
                 decision := { d with publish_at := none } }] },
        .ok none),
       [.scheduleJob ("delayed_publish_" ++ tid)]) := by
    unfold resume_creation scheduleDelayedPublish
    simp only [hp]
    simp [hpa, hs, ht, truthyStr]
  refine ⟨?_, ?_, ?_, ?_, ?_, ?_⟩
  · rw [hres]
    simp
  · rw [hres]
  · rw [hres]
    exact lookupPending_insert _ tid p
  · rw [hres]
    exact jobs_replace_count o.jobs _ _ rfl
  · rw [hres]
    exact ⟨_, List.mem_append_right _ (List.mem_singleton_self _), rfl, rfl, rfl⟩
  · have h11 : (resume_creation o tid d fuel).1.1 =
        { o with
            pending_interrupts :=
              insertPending (erasePending o.pending_interrupts tid) tid p,
            jobs := o.jobs.filter (fun j => j.id != "delayed_publish_" ++ tid) ++
              [{ id := "delayed_publish_" ++ tid, thread_id := tid, run_date := t,
                 decision := { d with publish_at := none } }] } := by rw [hres]
    rw [h11]
    unfold resume_creation
    simp only [lookupPending_insert]
    rcases hrun : (resumeRun p.env fuel p.paused (.dict { d with publish_at := none })).1
      with gs | ⟨gs, pl⟩ | _
    · refine ⟨(resumeRun p.env fuel p.paused
        (.dict { d with publish_at := none })).2, ?_⟩
      simp [truthyStr, hrun]
    · refine ⟨(resumeRun p.env fuel p.paused
        (.dict { d with publish_at := none })).2, ?_⟩
      simp [truthyStr, hrun]
    · refine ⟨(resumeRun p.env fuel p.paused
        (.dict { d with publish_at := none })).2, ?_⟩
      simp [truthyStr, hrun]

/-- Witness for C2 on the one-pending orchestrator with the accepted
timestamp. -/
theorem c2_witness :
    (∀ tr, OrchEffect.graphResume "t1" tr ∉
      (resume_creation orchOnePending "t1" wDelayedDecision 5).2) ∧
    (resume_creation orchOnePending "t1" wDelayedDecision 5).1.2 = .ok none ∧
    lookupPending
      (resume_creation orchOnePending "t1" wDelayedDecision 5).1.1.pending_interrupts
      "t1" = some wPending ∧
    (resume_creation orchOnePending "t1" wDelayedDecision 5).1.1.jobs.countP
      (fun j => j.id == "delayed_publish_" ++ "t1") = 1 ∧
    (∃ j ∈ (resume_creation orchOnePending "t1" wDelayedDecision 5).1.1.jobs,
      j.id = "delayed_publish_" ++ "t1" ∧
      j.decision = { wDelayedDecision with publish_at := none } ∧ j.run_date = 42) ∧
    (∃ tr, OrchEffect.graphResume "t1" tr ∈
      (resume_creation (resume_creation orchOnePending "t1" wDelayedDecision 5).1.1 "t1"
        { wDelayedDecision with publish_at := none } 5).2) :=
  c2_delayed_publish orchOnePending "t1" wPending wDelayedDecision
    "2031-01-01T10:00" 42 5 rfl rfl (by decide) (by simp [orchOnePending]) (by decide)

/-- Streaming from a state paused at `human_approval` with a selected post
pauses immediately, emitting the interrupt payload. -/
lemma runFrom_approval_paused (env : Env) (fuel : ℕ) (gs : GState) (sel : RankedPost)
    (h : gs.selected_post = some sel) :
    runFrom env (fuel + 1) .human_approval gs =
      (.pausedAtApproval gs (approvalPayload gs sel), [.human_approval]) := by
  obtain ⟨cf, tf, gr, vp, ep, gv, rp, sp, hd, he, hfb, pp, cn, er⟩ := gs
  simp only at h
  subst h
  rfl

/-- Unfolding step of `runFrom` at `generate_post_variants`. -/
lemma runFrom_generate_step (env : Env) (fuel : ℕ) (gs : GState) :
    runFrom env (fuel + 1) .generate_post_variants gs =
      ((runFrom env fuel .rank_and_select (generate_post_variants env gs)).1,
       .generate_post_variants ::
         (runFrom env fuel .rank_and_select (generate_post_variants env gs)).2) := rfl

/-- Unfolding step of `runFrom` at `rank_and_select`. -/
lemma runFrom_rank_step (env : Env) (fuel : ℕ) (gs : GState) :
    runFrom env (fuel + 1) .rank_and_select gs =
      ((runFrom env fuel .human_approval (rank_and_select env gs)).1,
       .rank_and_select ::
         (runFrom env fuel .human_approval (rank_and_select env gs)).2) := rfl

/-- One reject-with-feedback resume on a pending thread whose state holds a
selected post and non-empty patterns, with a successfully regenerating
environment: the graph replays the approval node, routes to regeneration,
re-ranks, pauses again at approval, and the orchestrator re-registers the
entry and re-notifies. -/
lemma resume_reject_feedback_step (o : Orch) (tid : String) (p : Pending)
    (f : String) (k : ℕ) (vs : List Variant) (scores : List AIScore)
    (hp : lookupPending o.pending_interrupts tid = some p)
    (hsel : p.paused.selected_post.isSome)
    (hpat : p.paused.extracted_patterns ≠ [])
    (hgen : p.env.gen_result = .ok vs) (hvs : vs ≠ [])
    (hai : p.env.ai_result = .ok scores)
    (hf : f ≠ "") :
    ∃ gs',
      resume_creation o tid (rejectFeedback f) (k + 3) =
        (({ o with
              pending_interrupts :=
                insertPending (erasePending o.pending_interrupts tid) tid
                  (⟨p.env, gs'⟩ : Pending) },
           .ok (some gs')),
         [.graphResume tid
            [.human_approval, .generate_post_variants, .rank_and_select, .human_approval],
          .notifyApproval tid]) ∧
      gs'.selected_post.isSome ∧
      gs'.extracted_patterns = p.paused.extracted_patterns := by
  obtain ⟨sel, hsel'⟩ := Option.isSome_iff_exists.mp hsel
  have h1 : human_approval_resumed p.paused (.dict (rejectFeedback f)) =
      { p.paused with
          selected_post := none
          human_decision := some "reject"
          human_edited_content := none
          human_feedback := some f } := by
    simp [human_approval_resumed, hsel', rejectFeedback]
  have h2 : routeTarget
      ({ p.paused with
          selected_post := none
          human_decision := some "reject"
          human_edited_content := none
          human_feedback := some f } : GState) =
      some .generate_post_variants := by
    simp [routeTarget, afterApproval, truthyStr, hf]
  have h3 : generate_post_variants p.env
      ({ p.paused with
          selected_post := none
          human_decision := some "reject"
          human_edited_content := none
          human_feedback := some f } : GState) =
      { p.paused with
          selected_post := none
          human_decision := some "reject"
          human_edited_content := none
          human_feedback := some f
          generated_variants := vs } := by
    simp [generate_post_variants, hpat, hgen]
  have h4 : rank_and_select p.env
      ({ p.paused with
          selected_post := none
          human_decision := some "reject"
          human_edited_content := none
          human_feedback := some f
          generated_variants := vs } : GState) =
      { p.paused with
          selected_post := (rankVariants p.env scores vs).head?
          human_decision := some "reject"
          human_edited_content := none
          human_feedback := some f
          generated_variants := vs
          ranked_posts := rankVariants p.env scores vs } := by
    simp [rank_and_select, hvs, hai]
  have hrne : rankVariants p.env scores vs ≠ [] := by
    intro hnil
    have hlen := rankVariants_length p.env scores vs
    rw [hnil] at hlen
    exact hvs (List.length_eq_zero.mp hlen.symm)
  obtain ⟨h0, t0, hht⟩ := List.exists_cons_of_ne_nil hrne
  have hhead : (rankVariants p.env scores vs).head? = some h0 := by
    rw [hht]
    rfl
  refine ⟨{ p.paused with
      selected_post := (rankVariants p.env scores vs).head?
      human_decision := some "reject"
      human_edited_content := none
      human_feedback := some f
      generated_variants := vs
      ranked_posts := rankVariants p.env scores vs }, ?_, ?_, ?_⟩
  · have h5 : runFrom p.env (k + 3) .generate_post_variants
        ({ p.paused with
            selected_post := none
            human_decision := some "reject"
            human_edited_content := none
            human_feedback := some f } : GState) =
        (.pausedAtApproval
          ({ p.paused with
              selected_post := (rankVariants p.env scores vs).head?
              human_decision := some "reject"
              human_edited_content := none
              human_feedback := some f
              generated_variants := vs
              ranked_posts := rankVariants p.env scores vs } : GState)
          (approvalPayload
            ({ p.paused with
                selected_post := (rankVariants p.env scores vs).head?
                human_decision := some "reject"
                human_edited_content := none
                human_feedback := some f
                generated_variants := vs
                ranked_posts := rankVariants p.env scores vs } : GState) h0),
         [.generate_post_variants, .rank_and_select, .human_approval]) := by
      show runFrom p.env (k + 2 + 1) .generate_post_variants _ = _
      rw [runFrom_generate_step, h3, show (k + 2 : ℕ) = k + 1 + 1 from rfl,
        runFrom_rank_step, h4,
        runFrom_approval_paused p.env k _ h0 (by simp [hhead])]
    have h6 : resumeRun p.env (k + 3) p.paused (.dict (rejectFeedback f)) =
        (.pausedAtApproval
          ({ p.paused with
              selected_post := (rankVariants p.env scores vs).head?
              human_decision := some "reject"
              human_edited_content := none
              human_feedback := some f
              generated_variants := vs
              ranked_posts := rankVariants p.env scores vs } : GState)
          (approvalPayload
            ({ p.paused with
                selected_post := (rankVariants p.env scores vs).head?
                human_decision := some "reject"
                human_edited_content := none
                human_feedback := some f
                generated_variants := vs
                ranked_posts := rankVariants p.env scores vs } : GState) h0),
         [.human_approval, .generate_post_variants, .rank_and_select, .human_approval]) := by
      unfold resumeRun
      rw [h1, h2]
      simp only [h5]
    unfold resume_creation
    simp only [hp]
    have hpub : truthyStr (rejectFeedback f).publish_at = false := rfl
    simp [hpub, h6]
  · simp [hhead]
  · rfl

/-- The re-interrupt loop invariant: under a regenerating environment, any
number of reject-with-feedback resumes keeps exactly one registry entry for
the thread. -/
lemma reinterrupt_invariant (tid f : String) (k : ℕ) (vs : List Variant)
    (scores : List AIScore) (E : Env)
    (hgen : E.gen_result = .ok vs) (hvs : vs ≠ []) (hai : E.ai_result = .ok scores)
    (hf : f ≠ "") :
    ∀ (n : ℕ) (o : Orch) (p : Pending),
      lookupPending o.pending_interrupts tid = some p → p.env = E →
      p.paused.selected_post.isSome → p.paused.extracted_patterns ≠ [] →
      countPending o.pending_interrupts tid = 1 →
      countPending
        (iterResume tid (rejectFeedback f) (k + 3) n o).pending_interrupts tid = 1 := by
  intro n
  induction n with
  | zero =>
      intro o p _ _ _ _ h5
      exact h5
  | succ m ih =>
      intro o p h1 h2 h3 h4 _
      obtain ⟨gs', hres, hsel', hpat'⟩ :=
        resume_reject_feedback_step o tid p f k vs scores h1 h3 h4
          (h2 ▸ hgen) hvs (h2 ▸ hai) hf
      have hstep : iterResume tid (rejectFeedback f) (k + 3) (m + 1) o =
          iterResume tid (rejectFeedback f) (k + 3) m
            (resume_creation o tid (rejectFeedback f) (k + 3)).1.1 := rfl
      rw [hstep, hres]
      exact ih _ (⟨p.env, gs'⟩ : Pending) (lookupPending_insert _ tid _) h2 hsel'
        (hpat' ▸ h4) (countPending_insert _ tid _)

/-- C3: resuming a pending thread with a reject decision carrying non-empty
feedback routes execution back into `generate_post_variants`, and after the
call the registry again holds exactly one entry for the same thread (the
re-interrupt is re-registered); iterating such resumes is supported to any
depth.  Requires a successfully regenerating environment (patterns present,
the generation and scoring LLM calls succeed with at least one variant) and
enough recursion budget. -/
theorem c3_reject_feedback_reinterrupt (o : Orch) (tid : String) (p : Pending)
    (f : String) (k : ℕ) (vs : List Variant) (scores : List AIScore)
    (hp : lookupPending o.pending_interrupts tid = some p)
    (hsel : p.paused.selected_post.isSome)
    (hpat : p.paused.extracted_patterns ≠ [])
    (hgen : p.env.gen_result = .ok vs) (hvs : vs ≠ [])
    (hai : p.env.ai_result = .ok scores)
    (hf : f ≠ "")
    (hcount : countPending o.pending_interrupts tid = 1) :
    (∃ tr, (resume_creation o tid (rejectFeedback f) (k + 3)).2 =
        [.graphResume tid tr, .notifyApproval tid] ∧
      Node.generate_post_variants ∈ tr) ∧
    countPending
      (resume_creation o tid (rejectFeedback f) (k + 3)).1.1.pending_interrupts tid
      = 1 ∧
    (∀ n, countPending
      (iterResume tid (rejectFeedback f) (k + 3) n o).pending_interrupts tid = 1) := by
  obtain ⟨gs', hres, hsel', hpat'⟩ :=
    resume_reject_feedback_step o tid p f k vs scores hp hsel hpat hgen hvs hai hf
  refine ⟨?_, ?_, ?_⟩
  · rw [hres]
    exact ⟨_, rfl, by decide⟩
  · rw [hres]
    exact countPending_insert _ tid _
  · exact fun n => reinterrupt_invariant tid f k vs scores p.env hgen hvs hai hf
      n o p hp rfl hsel hpat hcount

/-- Witness for C3 on the concrete re-interrupt fixture. -/
theorem c3_witness :
    (∃ tr, (resume_creation orchReinterrupt "t1" (rejectFeedback "too promo") 3).2 =
        [.graphResume "t1" tr, .notifyApproval "t1"] ∧
      Node.generate_post_variants ∈ tr) ∧
    countPending
      (resume_creation orchReinterrupt "t1"
        (rejectFeedback "too promo") 3).1.1.pending_interrupts "t1" = 1 ∧
    (∀ n, countPending
      (iterResume "t1" (rejectFeedback "too promo") 3 n
        orchReinterrupt).pending_interrupts "t1" = 1) :=
  c3_reject_feedback_reinterrupt orchReinterrupt "t1"
    (⟨c3Env, c3Paused⟩ : Pending) "too promo" 0 [c6Variant] [⟨0, 8, "g"⟩]
    rfl rfl (by decide) rfl (by decide) rfl (by decide) rfl

end AutoViral
